import Mathlib

/-!
Shallow embedding of the core of `src/app.js` (JurisTST, a client-side
catalog browser for legal precedent documents), together with theorems
checking the natural-language specification against it.

JavaScript conventions are modelled explicitly:
- possibly-`undefined` string fields are `Option String`; `x || 'd'` is `jsOr`,
  and template interpolation of a possibly-`undefined` value is `jsStr`
  (yielding `"undefined"` when the value is absent, as in JS);
- JS objects used as string-keyed dictionaries are `StrMap V := String → Option V`
  with `mget` / `mset` / `mdel` (presence of a key = `isSome`);
- `String.prototype.trim` is `jsTrim` over the JS whitespace characters that
  occur in this development; `toLowerCase` / `toUpperCase` are per-character
  maps over the ASCII and Latin-1 repertoire used by the application;
- `String.prototype.normalize('NFD')` is modelled by the canonical
  decomposition of the Latin-1 precomposed letters (the repertoire of the
  application's language); every other character decomposes to itself;
- `String.prototype.includes` is substring containment (`jsIncludes`).
-/

/-- The JS whitespace characters relevant here (argument of `trim` and of
whitespace classification): space, tab, newline, carriage return, vertical
tab, form feed, no-break space. -/
def jsIsWs (c : Char) : Bool :=
  c == ' ' || c == '\t' || c == '\n' || c == '\r' ||
  c == '\u000B' || c == '\u000C' || c == '\u00A0'

/-- Both-ends whitespace trimming on a character list (JS `trim`). -/
def trimChars (l : List Char) : List Char :=
  ((l.dropWhile jsIsWs).reverse.dropWhile jsIsWs).reverse

/-- JS `String.prototype.trim`. -/
def jsTrim (s : String) : String :=
  String.mk (trimChars s.toList)

/-- ASCII alphanumeric test, the complement of the regex `[^a-zA-Z0-9]`. -/
def isAlnumAscii (c : Char) : Bool :=
  ('a' ≤ c && c ≤ 'z') || ('A' ≤ c && c ≤ 'Z') || ('0' ≤ c && c ≤ '9')

/-- Per-character `toLowerCase` over ASCII plus the Latin-1 accented capitals
used by the application's language. -/
def jsToLowerChar (c : Char) : Char :=
  if 'A' ≤ c && c ≤ 'Z' then Char.ofNat (c.toNat + 32)
  else if c == 'Á' then 'á' else if c == 'À' then 'à'
  else if c == 'Â' then 'â' else if c == 'Ã' then 'ã'
  else if c == 'Ä' then 'ä' else if c == 'É' then 'é'
  else if c == 'È' then 'è' else if c == 'Ê' then 'ê'
  else if c == 'Ë' then 'ë' else if c == 'Í' then 'í'
  else if c == 'Ì' then 'ì' else if c == 'Î' then 'î'
  else if c == 'Ï' then 'ï' else if c == 'Ó' then 'ó'
  else if c == 'Ò' then 'ò' else if c == 'Ô' then 'ô'
  else if c == 'Õ' then 'õ' else if c == 'Ö' then 'ö'
  else if c == 'Ú' then 'ú' else if c == 'Ù' then 'ù'
  else if c == 'Û' then 'û' else if c == 'Ü' then 'ü'
  else if c == 'Ç' then 'ç'
  else c

/-- Per-character `toUpperCase` over the same repertoire. -/
def jsToUpperChar (c : Char) : Char :=
  if 'a' ≤ c && c ≤ 'z' then Char.ofNat (c.toNat - 32)
  else if c == 'á' then 'Á' else if c == 'à' then 'À'
  else if c == 'â' then 'Â' else if c == 'ã' then 'Ã'
  else if c == 'ä' then 'Ä' else if c == 'é' then 'É'
  else if c == 'è' then 'È' else if c == 'ê' then 'Ê'
  else if c == 'ë' then 'Ë' else if c == 'í' then 'Í'
  else if c == 'ì' then 'Ì' else if c == 'î' then 'Î'
  else if c == 'ï' then 'Ï' else if c == 'ó' then 'Ó'
  else if c == 'ò' then 'Ò' else if c == 'ô' then 'Ô'
  else if c == 'õ' then 'Õ' else if c == 'ö' then 'Ö'
  else if c == 'ú' then 'Ú' else if c == 'ù' then 'Ù'
  else if c == 'û' then 'Û' else if c == 'ü' then 'Ü'
  else if c == 'ç' then 'Ç'
  else c

/-- JS `toLowerCase` on strings. -/
def jsToLower (s : String) : String :=
  String.mk (s.toList.map jsToLowerChar)

/-- JS `toUpperCase` on strings. -/
def jsToUpper (s : String) : String :=
  String.mk (s.toList.map jsToUpperChar)

/-- Canonical (NFD) decomposition of one character, restricted to the Latin-1
precomposed lowercase letters of the application's language (the input is
already lowercased when this is applied, mirroring `normalizarTexto`);
all other characters decompose to themselves. -/
def nfdChar (c : Char) : List Char :=
  if c == 'á' then ['a', '\u0301'] else if c == 'à' then ['a', '\u0300']
  else if c == 'â' then ['a', '\u0302'] else if c == 'ã' then ['a', '\u0303']
  else if c == 'ä' then ['a', '\u0308'] else if c == 'é' then ['e', '\u0301']
  else if c == 'è' then ['e', '\u0300'] else if c == 'ê' then ['e', '\u0302']
  else if c == 'ë' then ['e', '\u0308'] else if c == 'í' then ['i', '\u0301']
  else if c == 'ì' then ['i', '\u0300'] else if c == 'î' then ['i', '\u0302']
  else if c == 'ï' then ['i', '\u0308'] else if c == 'ó' then ['o', '\u0301']
  else if c == 'ò' then ['o', '\u0300'] else if c == 'ô' then ['o', '\u0302']
  else if c == 'õ' then ['o', '\u0303'] else if c == 'ö' then ['o', '\u0308']
  else if c == 'ú' then ['u', '\u0301'] else if c == 'ù' then ['u', '\u0300']
  else if c == 'û' then ['u', '\u0302'] else if c == 'ü' then ['u', '\u0308']
  else if c == 'ç' then ['c', '\u0327']
  else [c]

/-- Combining diacritical marks, the range U+0300 to U+036F of the regex in
`normalizarTexto`. -/
def isCombiningMark (c : Char) : Bool :=
  0x300 ≤ c.toNat && c.toNat ≤ 0x36F

/-- `normalizarTexto` (src/app.js lines 47-55): empty/absent input yields `""`;
otherwise lowercase, decompose (NFD), drop combining marks, trim. -/
def normalizarTexto (texto : String) : String :=
  if texto = "" then ""
  else
    jsTrim (String.mk
      (((texto.toList.map jsToLowerChar).map nfdChar).flatten.filter
        (fun c => !(isCombiningMark c))))

/-- Prefix test on character lists: does `pat` occur at the head of `l`? -/
def matchesAt : List Char → List Char → Bool
  | _, [] => true
  | [], _ :: _ => false
  | a :: as, b :: bs => a == b && matchesAt as bs

/-- Substring occurrence test on character lists. -/
def hasSub : List Char → List Char → Bool
  | [], pat => pat.isEmpty
  | a :: as, pat => matchesAt (a :: as) pat || hasSub as pat

/-- JS `String.prototype.includes`. -/
def jsIncludes (hay needle : String) : Bool :=
  hasSub hay.toList needle.toList

/-- `contemTermoNormalizado` (src/app.js lines 63-70): `false` when either RAW
string is empty, else normalized substring containment. -/
def contemTermoNormalizado (textoCompleto termoBusca : String) : Bool :=
  if textoCompleto = "" ∨ termoBusca = "" then false
  else jsIncludes (normalizarTexto textoCompleto) (normalizarTexto termoBusca)

/-- The identifier cleaning step of `gerarIdConsistente`:
`String(identificador).trim().replace(/[^a-zA-Z0-9]/g, '')`. -/
def limparId (identificador : String) : String :=
  String.mk ((trimChars identificador.toList).filter isAlnumAscii)

/-- `gerarIdConsistente` (src/app.js lines 14-37): fixed per-kind prefix with
`_`, except thesis kinds which use `tese-`; unknown kinds keep the raw kind
token as prefix (the `console.warn` is presentation-only and not modelled). -/
def gerarIdConsistente (tipo identificador : String) : String :=
  let idLimpo := limparId identificador
  let t := jsToLower tipo
  if t = "sumula" then "sumula_" ++ idLimpo
  else if t = "oj" then "oj_" ++ idLimpo
  else if t = "precedente" ∨ t = "precedente_normativo" then "precedente_" ++ idLimpo
  else if t = "informativo" then "informativo_" ++ idLimpo
  else if t = "tese" ∨ t = "irr" ∨ t = "irdr" ∨ t = "iac" then "tese-" ++ idLimpo
  else tipo ++ "_" ++ idLimpo

/-- JS `x || d` for a possibly-`undefined` string `x`: the default steps in
when `x` is `undefined` or the empty string (both falsy). -/
def jsOr (o : Option String) (d : String) : String :=
  match o with
  | none => d
  | some s => if s = "" then d else s

/-- JS template interpolation / `String(x)` of a possibly-`undefined` string. -/
def jsStr (o : Option String) : String :=
  o.getD "undefined"

/-- Truthiness of a possibly-`undefined` string (`if (anotacoes[id])`). -/
def jsTruthyStr (o : Option String) : Bool :=
  o.getD "" != ""

/-- JS `Array.prototype.includes` on an array of strings. -/
def arrIncludes (l : List String) (v : String) : Bool :=
  l.any (fun x => x == v)

/-- A JS object used as a string-keyed dictionary. -/
abbrev StrMap (V : Type) := String → Option V

/-- Key lookup (`m[k]`, `undefined` when absent). -/
def mget {V : Type} (m : StrMap V) (k : String) : Option V := m k

/-- Key assignment (`m[k] = v`). -/
def mset {V : Type} (m : StrMap V) (k : String) (v : V) : StrMap V :=
  fun k2 => if k2 = k then some v else m k2

/-- Key removal (`delete m[k]`). -/
def mdel {V : Type} (m : StrMap V) (k : String) : StrMap V :=
  fun k2 => if k2 = k then none else m k2

/-- The empty dictionary (`{}`). -/
def memp {V : Type} : StrMap V := fun _ => none

/-- A catalog record (raw payload entry, uploaded document, or merged item).
JS records are duck-typed; possibly-absent fields are `Option`s, and the
truthiness of the `cancelada` flag is modelled as a `Bool`. -/
structure Item where
  id : Option String
  tipo : Option String
  source : Option String
  numero : Option String
  titulo : Option String
  texto : Option String
  textoExtraido : Option String
  orgao : Option String
  tema : Option String
  nome : Option String
  cancelada : Bool
deriving DecidableEq

/-- The `item.source === 'jurisprudencia'` test used throughout src/app.js. -/
def ehJurisprudencia (item : Item) : Bool :=
  item.source == some "jurisprudencia"

/-- The `stats` record (src/app.js lines 95-99). -/
structure Stats where
  total : Nat
  vigentes : Nat
  canceladas : Nat
deriving DecidableEq

/-- `calcularEstatisticas` (src/app.js lines 349-359), as a pure function of
the flat item collection (the DOM counter updates are presentation-only). -/
def calcularEstatisticas (todosItens : List Item) : Stats :=
  let jurisprudenciaItems := todosItens.filter ehJurisprudencia
  { total := jurisprudenciaItems.length
    vigentes := (jurisprudenciaItems.filter (fun item => !item.cancelada)).length
    canceladas := (jurisprudenciaItems.filter (fun item => item.cancelada)).length }

/-- The module-level mutable state of src/app.js that the store operations and
the merge step touch (lines 79-99), gathered into one record. -/
structure Estado where
  todosItens : List Item
  itensFiltrados : List Item
  informativos : List Item
  tesesVinculantes : List Item
  favoritos : List String
  anotacoes : StrMap String
  tags : StrMap (List String)
  correlacoes : StrMap (List String)
  stats : Stats

/-- `salvarAnotacao` (src/app.js lines 674-690) on the annotation store:
non-empty trimmed text stores the raw text, otherwise the key is deleted
(the save indicator and `localStorage` write-through are not modelled). -/
def salvarAnotacao (anotacoes : StrMap String) (id texto : String) : StrMap String :=
  if jsTrim texto ≠ "" then mset anotacoes id texto
  else mdel anotacoes id

/-- `adicionarTag` (src/app.js lines 708-727) on the tag store: ensures an
entry exists, then pushes the TRIMMED tag when the RAW tag is not yet a member
and the trimmed tag is non-empty (the rendering calls are not modelled). -/
def adicionarTag (tags : StrMap (List String)) (id tag : String) : StrMap (List String) :=
  let tags1 := if (mget tags id).isNone then mset tags id [] else tags
  if arrIncludes ((mget tags1 id).getD []) tag = false ∧ jsTrim tag ≠ "" then
    mset tags1 id (((mget tags1 id).getD []) ++ [jsTrim tag])
  else tags1

/-- `removerTag` (src/app.js lines 729-747): filters the tag out if the entry
exists, deleting the entry when the result is empty. -/
def removerTag (tags : StrMap (List String)) (id tag : String) : StrMap (List String) :=
  match mget tags id with
  | none => tags
  | some l =>
    let l2 := l.filter (fun t => t != tag)
    if l2.length = 0 then mdel tags id else mset tags id l2

/-- `if (!correlacoes[k]) correlacoes[k] = []` of `adicionarCorrelacao`. -/
def ensureEntry (m : StrMap (List String)) (k : String) : StrMap (List String) :=
  if (mget m k).isNone then mset m k [] else m

/-- `if (!correlacoes[k].includes(v)) correlacoes[k].push(v)` of
`adicionarCorrelacao` (the entry exists at this point; a missing entry reads
as `[]`). -/
def pushIfMissing (m : StrMap (List String)) (k v : String) : StrMap (List String) :=
  let cur := (mget m k).getD []
  if arrIncludes cur v = false then mset m k (cur ++ [v]) else m

/-- `adicionarCorrelacao` (src/app.js lines 768-784): ensure both entries
exist, then push each id onto the other's list when not already present. -/
def adicionarCorrelacao (correlacoes : StrMap (List String)) (id1 id2 : String) :
    StrMap (List String) :=
  pushIfMissing (pushIfMissing (ensureEntry (ensureEntry correlacoes id1) id2) id1 id2) id2 id1

/-- One side of `removerCorrelacao`: if the entry exists, filter the other id
out and delete the entry when the remaining list is empty. -/
def removeEdge (m : StrMap (List String)) (k v : String) : StrMap (List String) :=
  match mget m k with
  | none => m
  | some l =>
    let l2 := l.filter (fun x => x != v)
    if l2.length = 0 then mdel m k else mset m k l2

/-- `removerCorrelacao` (src/app.js lines 786-801): both directions. -/
def removerCorrelacao (correlacoes : StrMap (List String)) (id1 id2 : String) :
    StrMap (List String) :=
  removeEdge (removeEdge correlacoes id1 id2) id2 id1

/-- `removerDocumento` (src/app.js lines 1638-1681), with the `confirm()`
dialog answered affirmatively and rendering/toast calls dropped: filters the
owning upload collection and the flat collection by id, removes the id from
favorites, and deletes the id's OWN annotation, tag and correlation entries
(truthiness guards as in the source). -/
def removerDocumento (st : Estado) (id tipo : String) : Estado :=
  let st1 :=
    if tipo = "informativo" then
      { st with informativos := st.informativos.filter (fun info => info.id != some id) }
    else if tipo = "tese" then
      { st with tesesVinculantes := st.tesesVinculantes.filter (fun tese => tese.id != some id) }
    else st
  let st2 := { st1 with todosItens := st1.todosItens.filter (fun item => item.id != some id) }
  let st3 :=
    if arrIncludes st2.favoritos id then
      { st2 with favoritos := st2.favoritos.filter (fun fav => fav != id) }
    else st2
  let st4 :=
    if jsTruthyStr (mget st3.anotacoes id) then
      { st3 with anotacoes := mdel st3.anotacoes id }
    else st3
  let st5 :=
    if (mget st4.tags id).isSome then
      { st4 with tags := mdel st4.tags id }
    else st4
  if (mget st5.correlacoes id).isSome then
    { st5 with correlacoes := mdel st5.correlacoes id }
  else st5

/-- The display-label table of the type filter in `realizarBusca`
(src/app.js lines 391-395). -/
def tipoMapLookup (t : String) : Option String :=
  if t = "sumula" then some "Súmula"
  else if t = "oj" then some "OJ"
  else if t = "precedente" then some "Precedente Normativo"
  else none

/-- `tipoMap[item.tipo] || item.tipo` (src/app.js line 396): `undefined` stays
`undefined`; an unmapped raw tag (including `""`) falls through unchanged. -/
def tipoDisplay (item : Item) : Option String :=
  match item.tipo with
  | none => none
  | some t =>
    match tipoMapLookup t with
    | some d => some d
    | none => some t

/-- The dictionary key that `tags[item.id]` / `anotacoes[item.id]` uses
(JS coerces an `undefined` key to the string "undefined"). -/
def idKey (item : Item) : String :=
  jsStr item.id

/-- Splitting a character list at a one-character separator, accumulator style
(kept structural so concrete searches evaluate by `decide`). -/
def splitCharAux (sep : Char) : List Char → List Char → List (List Char)
  | [], acc => [acc.reverse]
  | c :: rest, acc =>
    if c == sep then acc.reverse :: splitCharAux sep rest []
    else splitCharAux sep rest (c :: acc)

/-- JS `String.prototype.split` with a one-character string separator — the
two uses in `realizarBusca` are `split(' ')` and `split(',')`. Empty pieces
are kept, as in JS. -/
def jsSplitChar (s : String) (sep : Char) : List String :=
  (splitCharAux sep s.toList []).map String.mk

/-- Modelled from the spec's words (spec.md §4.4 `freeText`): splitting "on
whitespace", i.e. at every whitespace character, not only at spaces. Used
solely to compare the spec's description with the code's `split(' ')`. -/
def splitWsAux : List Char → List Char → List (List Char)
  | [], acc => [acc.reverse]
  | c :: rest, acc =>
    if jsIsWs c then acc.reverse :: splitWsAux rest []
    else splitWsAux rest (c :: acc)

/-- Whitespace-class splitting on strings (spec-side only). -/
def splitEmBrancos (s : String) : List String :=
  (splitWsAux s.toList []).map String.mk

/-- The tag filter of `realizarBusca` (src/app.js lines 413-420): every
comma-separated, trimmed filter tag must normalized-substring-match at least
one stored tag of the item. -/
def hasAllTags (tagsMap : StrMap (List String)) (tagsFiltro : String) (item : Item) : Bool :=
  let itemTags := (mget tagsMap (idKey item)).getD []
  let filterTagsArray := (jsSplitChar tagsFiltro ',').map jsTrim
  filterTagsArray.all (fun filterTag =>
    itemTags.any (fun itemTag => contemTermoNormalizado itemTag filterTag))

/-- `textoCompleto + ' ' + anotacao` of the free-text branch of `realizarBusca`
(src/app.js lines 424-426): the template concatenates number (interpolated,
so an absent number reads "undefined"), title, full text and extracted text,
then the stored annotation is appended. -/
def textoComAnotacao (anotacoes : StrMap String) (item : Item) : String :=
  jsStr item.numero ++ " " ++ jsOr item.titulo "" ++ " " ++ jsOr item.texto "" ++ " " ++
    jsOr item.textoExtraido "" ++ " " ++ jsOr (mget anotacoes (idKey item)) ""

/-- The free-text branch of `realizarBusca` (src/app.js lines 423-432): split
the raw search term on the space character, keep tokens of length > 2, and
require every token to `contemTermoNormalizado`-match the concatenated text. -/
def buscaTextual (anotacoes : StrMap String) (searchTerm : String) (item : Item) : Bool :=
  let termos := (jsSplitChar searchTerm ' ').filter (fun t => 2 < t.length)
  termos.all (fun termo => contemTermoNormalizado (textoComAnotacao anotacoes item) termo)

/-- The per-item predicate of `realizarBusca` (src/app.js lines 385-435):
sequential status, display-type, organ, exact-number, tag and free-text
filters, each written as the early-`return false` of the source. -/
def itemPassaFiltro (statusFiltro tipoFiltro orgaoFiltro numeroFiltro tagsFiltro
    searchTerm : String) (tagsMap : StrMap (List String)) (anotacoes : StrMap String)
    (item : Item) : Bool :=
  if statusFiltro = "vigentes" ∧ item.cancelada = true then false
  else if statusFiltro = "canceladas" ∧ item.cancelada = false then false
  else if tipoFiltro ≠ "todos" ∧ tipoDisplay item ≠ some tipoFiltro then false
  else if orgaoFiltro ≠ "todos" ∧ item.tipo = some "oj" ∧
      jsIncludes (jsToUpper (jsOr item.orgao "")) (jsToUpper orgaoFiltro) = false then false
  else if numeroFiltro ≠ "" ∧ item.numero ≠ some numeroFiltro then false
  else if tagsFiltro ≠ "" ∧ hasAllTags tagsMap tagsFiltro item = false then false
  else if normalizarTexto searchTerm ≠ "" then buscaTextual anotacoes searchTerm item
  else true

/-- The candidate-set selection of `realizarBusca` (src/app.js lines 373-383):
the primary tab always restricts to case-law; other tabs search everything
only when the normalized search term is non-empty. -/
def itensParaFiltrar (currentTab searchTermNormalizado : String)
    (todosItens : List Item) : List Item :=
  if currentTab = "jurisprudencia" then todosItens.filter ehJurisprudencia
  else if searchTermNormalizado ≠ "" then todosItens
  else todosItens.filter ehJurisprudencia

/-- `realizarBusca` (src/app.js lines 363-438) as a pure function: the DOM
reads become the string parameters (search box, type/organ selectors, number
and tag boxes, status radio), the trims of lines 364-368 are applied, and the
result is the new `itensFiltrados`. -/
def realizarBusca (currentTab searchInput tipoFiltro orgaoFiltro numeroInput
    tagsInput statusFiltro : String) (todosItens : List Item)
    (tagsMap : StrMap (List String)) (anotacoes : StrMap String) : List Item :=
  (itensParaFiltrar currentTab (normalizarTexto (jsTrim searchInput)) todosItens).filter
    (itemPassaFiltro statusFiltro tipoFiltro orgaoFiltro (jsTrim numeroInput)
      (jsTrim tagsInput) (jsTrim searchInput) tagsMap anotacoes)

/-- JS `String.prototype.replace` with a plain-string pattern: replaces the
FIRST occurrence only (an empty pattern matches at the start). -/
def replaceOnceChars : List Char → List Char → List Char → List Char
  | [], _, _ => []
  | h :: t, pat, rep =>
    if matchesAt (h :: t) pat then rep ++ (h :: t).drop pat.length
    else h :: replaceOnceChars t pat rep

/-- `replaceOnceChars` lifted to strings. -/
def replaceOnce (s pat rep : String) : String :=
  if hasSub s.toList pat.toList then
    String.mk (replaceOnceChars s.toList pat.toList rep.toList)
  else s

/-- The organ-name formatting of `processarDadosCarregados` (src/app.js lines
193-206): uppercase, the four first-occurrence SBDI replacements when "SBDI"
occurs, then every underscore becomes a hyphen. -/
def formatarOrgao (orgao : String) : String :=
  let up := jsToUpper orgao
  let up2 :=
    if jsIncludes up "SBDI" then
      replaceOnce (replaceOnce (replaceOnce (replaceOnce up "SBDI1_" "SBDI-1-")
        "SBDI2_" "SBDI-2-") "SBDI1" "SBDI-1") "SBDI2" "SBDI-2"
    else up
  String.mk (up2.toList.map (fun c => if c == '_' then '-' else c))

/-- The raw dataset payload handed to `processarDadosCarregados`. `invalido`
is a payload that fails the guard `!dadosTST || typeof dadosTST !== 'object'`
(null, undefined, or a primitive); `valido` carries the three expected
collections, each `none` when missing or not an array (for `ojs`, when missing
or not an object; a group whose value is not an array is `none` and skipped). -/
inductive Payload where
  | invalido : Payload
  | valido (sumulas : Option (List Item)) (ojs : Option (List (String × Option (List Item))))
      (precedentesNormativos : Option (List Item)) : Payload

/-- The successful branch of `processarDadosCarregados` (src/app.js lines
182-281): defaulting of missing collections, organ-group flattening with
`formatarOrgao`, id/kind/source assignment via `gerarIdConsistente`, and the
appending of stored bulletins and theses (existing ids win). The rendering
call and console logs are dropped; the new `todosItens`, `itensFiltrados` and
`stats` are written to the state. -/
def processarDadosValidos (sumulas : Option (List Item))
    (ojs : Option (List (String × Option (List Item))))
    (precedentesNormativos : Option (List Item)) (st : Estado) : Estado :=
  let sumulasArr := sumulas.getD []
  let ojsArray := (ojs.getD []).foldl
    (fun acc grupo =>
      match grupo.2 with
      | none => acc
      | some ojsItens =>
        acc ++ ojsItens.map (fun oj => { oj with orgao := some (formatarOrgao grupo.1) }))
    []
  let precedentesArr := precedentesNormativos.getD []
  let combinados :=
    sumulasArr.map (fun item =>
      { item with tipo := some (jsOr item.tipo "sumula")
                  id := some (gerarIdConsistente "sumula" (jsStr item.numero))
                  source := some "jurisprudencia" })
    ++ ojsArray.map (fun item =>
      { item with tipo := some (jsOr item.tipo "oj")
                  id := some (gerarIdConsistente "oj" (jsStr item.numero))
                  source := some "jurisprudencia" })
    ++ precedentesArr.map (fun item =>
      { item with tipo := some (jsOr item.tipo "precedente")
                  id := some (gerarIdConsistente "precedente" (jsStr item.numero))
                  source := some "jurisprudencia" })
  let comInformativos := combinados ++ st.informativos.enum.map (fun par =>
    { par.2 with id := some (jsOr par.2.id (gerarIdConsistente "informativo" (toString par.1)))
                 tipo := some "informativo"
                 source := some "informativo" })
  let todos := comInformativos ++ st.tesesVinculantes.map (fun tese =>
    { tese with id := some (jsOr tese.id (gerarIdConsistente "tese" (jsStr tese.tema)))
                source := some "tese"
                tipo := some (jsOr tese.tipo "IRR") })
  { st with todosItens := todos
            stats := calcularEstatisticas todos
            itensFiltrados := todos.filter ehJurisprudencia }

/-- The body of the `try` block of `processarDadosCarregados`: the malformed
payload throws (`'JSON inválido: não é um objeto'`) BEFORE any state mutation;
a valid payload rebuilds the flat collection. -/
def processarCore (p : Payload) (st : Estado) : Except String Estado :=
  match p with
  | .invalido => .error "JSON invalido: nao e um objeto"
  | .valido sumulas ojs precedentes => .ok (processarDadosValidos sumulas ojs precedentes st)

/-- `processarDadosCarregados` (src/app.js lines 175-288) including its
`try`/`catch`: on error the catch block only shows a toast, so the prior
state is returned untouched. -/
def processarDadosCarregados (p : Payload) (st : Estado) : Estado :=
  match processarCore p st with
  | .error _ => st
  | .ok st2 => st2

/-! ### Helper lemmas about the dictionary and list primitives -/

theorem mget_mset_self {V : Type} (m : StrMap V) (k : String) (v : V) :
    mget (mset m k v) k = some v := by
  simp [mget, mset]

theorem mget_mset_ne {V : Type} (m : StrMap V) (k k2 : String) (v : V) (h : k2 ≠ k) :
    mget (mset m k v) k2 = mget m k2 := by
  simp [mget, mset, h]

theorem mget_mdel_self {V : Type} (m : StrMap V) (k : String) :
    mget (mdel m k) k = none := by
  simp [mget, mdel]

theorem mget_mdel_ne {V : Type} (m : StrMap V) (k k2 : String) (h : k2 ≠ k) :
    mget (mdel m k) k2 = mget m k2 := by
  simp [mget, mdel, h]

theorem matchesAt_nil_right (l : List Char) : matchesAt l [] = true := by
  cases l <;> simp [matchesAt]

theorem hasSub_nil_right (l : List Char) : hasSub l [] = true := by
  cases l <;> simp [hasSub, matchesAt_nil_right]

theorem arrIncludes_append_self (l : List String) (v : String) :
    arrIncludes (l ++ [v]) v = true := by
  simp [arrIncludes]

theorem arrIncludes_filter_ne (l : List String) (v : String) :
    arrIncludes (l.filter (fun x => x != v)) v = false := by
  induction l with
  | nil => rfl
  | cons a t ih =>
    by_cases hav : a = v
    · simpa [List.filter_cons, hav] using ih
    · simp [List.filter_cons, hav, arrIncludes] at ih ⊢

theorem length_filter_add (l : List Item) (p q : Item → Bool)
    (hpq : ∀ a, q a = !(p a)) :
    (l.filter p).length + (l.filter q).length = l.length := by
  induction l with
  | nil => rfl
  | cons a t ih =>
    cases ha : p a <;> simp [List.filter_cons, ha, hpq a] <;> omega

theorem ws_not_alnum (c : Char) (h : jsIsWs c = true) : isAlnumAscii c = false := by
  simp only [jsIsWs, Bool.or_eq_true, beq_iff_eq] at h
  rcases h with ((((((rfl | rfl) | rfl) | rfl) | rfl) | rfl) | rfl) <;> decide

theorem filter_alnum_dropWhile_ws (l : List Char) :
    (l.dropWhile jsIsWs).filter isAlnumAscii = l.filter isAlnumAscii := by
  induction l with
  | nil => rfl
  | cons a t ih =>
    cases ha : jsIsWs a
    · simp [List.dropWhile_cons, ha]
    · simp [List.dropWhile_cons, ha, ih, List.filter_cons, ws_not_alnum a ha]

theorem filter_alnum_trimChars (l : List Char) :
    (trimChars l).filter isAlnumAscii = l.filter isAlnumAscii := by
  unfold trimChars
  rw [List.filter_reverse, filter_alnum_dropWhile_ws, List.filter_reverse,
    filter_alnum_dropWhile_ws, List.reverse_reverse]

theorem pushIfMissing_includes_self (m : StrMap (List String)) (k v : String) :
    arrIncludes ((mget (pushIfMissing m k v)  k).getD []) v = true := by
  unfold pushIfMissing
  by_cases h : arrIncludes ((mget m k).getD []) v = false
  · rw [if_pos h, mget_mset_self]
    exact arrIncludes_append_self _ v
  · rw [if_neg h]
    simpa using h

theorem pushIfMissing_other (m : StrMap (List String)) (k k2 v : String) (h : k2 ≠ k) :
    mget (pushIfMissing m k v) k2 = mget m k2 := by
  unfold pushIfMissing
  by_cases hc : arrIncludes ((mget m k).getD []) v = false
  · rw [if_pos hc, mget_mset_ne _ _ _ _ h]
  · rw [if_neg hc]

theorem removeEdge_excludes_self (m : StrMap (List String)) (k v : String) :
    arrIncludes ((mget (removeEdge m k v) k).getD []) v = false := by
  cases hmk : mget m k with
  | none => simp only [removeEdge, hmk]; simp [hmk, arrIncludes]
  | some l =>
    simp only [removeEdge, hmk]
    by_cases hl : (l.filter (fun x => x != v)).length = 0
    · rw [if_pos hl, mget_mdel_self]
      rfl
    · rw [if_neg hl, mget_mset_self]
      exact arrIncludes_filter_ne l v

theorem removeEdge_no_empty_self (m : StrMap (List String)) (k v : String) :
    (mget (removeEdge m k v) k == some ([] : List String)) = false := by
  cases hmk : mget m k with
  | none => simp only [removeEdge, hmk]; simp [hmk]
  | some l =>
    simp only [removeEdge, hmk]
    by_cases hl : (l.filter (fun x => x != v)).length = 0
    · rw [if_pos hl, mget_mdel_self]
      rfl
    · rw [if_neg hl, mget_mset_self]
      have hne : l.filter (fun x => x != v) ≠ [] := fun he => hl (by rw [he]; rfl)
      simpa using hne

theorem removeEdge_other (m : StrMap (List String)) (k k2 v : String) (h : k2 ≠ k) :
    mget (removeEdge m k v) k2 = mget m k2 := by
  cases hmk : mget m k with
  | none => simp only [removeEdge, hmk]
  | some l =>
    simp only [removeEdge, hmk]
    by_cases hl : (l.filter (fun x => x != v)).length = 0
    · rw [if_pos hl, mget_mdel_ne _ _ _ h]
    · rw [if_neg hl, mget_mset_ne _ _ _ _ h]

/-! ### Claim theorems -/

/-- Claim C9: `calcularEstatisticas` counts only case-law items — `total` is
the number of items with `source === 'jurisprudencia'`, `vigentes` those among
them with the `cancelada` flag false, `canceladas` those with it true — and
`total = vigentes + canceladas` always holds. -/
theorem calcularEstatisticas_spec (todosItens : List Item) :
    (calcularEstatisticas todosItens).total =
      (calcularEstatisticas todosItens).vigentes +
        (calcularEstatisticas todosItens).canceladas ∧
    (calcularEstatisticas todosItens).total = (todosItens.filter ehJurisprudencia).length ∧
    (calcularEstatisticas todosItens).vigentes =
      ((todosItens.filter ehJurisprudencia).filter (fun item => !item.cancelada)).length ∧
    (calcularEstatisticas todosItens).canceladas =
      ((todosItens.filter ehJurisprudencia).filter (fun item => item.cancelada)).length := by
  refine ⟨?_, rfl, rfl, rfl⟩
  have h := length_filter_add (todosItens.filter ehJurisprudencia)
    (fun item => !item.cancelada) (fun item => item.cancelada) (fun a => by simp)
  simpa [calcularEstatisticas] using h.symm

/-- Claim C10: when the haystack and the needle are both non-empty as raw
strings but the needle NORMALIZES to the empty string (e.g. whitespace-only
or only combining marks), `contemTermoNormalizado` returns `true`: emptiness
is checked on the raw strings before normalization, and every string contains
the empty substring. -/
theorem contemTermoNormalizado_needle_norm_vazio (textoCompleto termoBusca : String)
    (h1 : textoCompleto ≠ "") (h2 : termoBusca ≠ "")
    (h3 : normalizarTexto termoBusca = "") :
    contemTermoNormalizado textoCompleto termoBusca = true := by
  unfold contemTermoNormalizado
  rw [if_neg (by tauto), h3]
  unfold jsIncludes
  have he : ("" : String).toList = [] := rfl
  rw [he]
  exact hasSub_nil_right _

theorem contemTermoNormalizado_needle_norm_vazio_witness :
    contemTermoNormalizado "abc" " " = true :=
  contemTermoNormalizado_needle_norm_vazio "abc" " " (by decide) (by decide) (by decide)

/-- Claim C8: `salvarAnotacao` with non-empty trimmed text stores the (raw)
text under the id; with empty or whitespace-only text it deletes the key; and
it preserves the invariant that the store never holds an empty-string value
(so key absence is equivalent to having no annotation). -/
theorem salvarAnotacao_spec (anotacoes : StrMap String) (id texto : String) :
    (jsTrim texto ≠ "" → mget (salvarAnotacao anotacoes id texto) id = some texto) ∧
    (jsTrim texto = "" → mget (salvarAnotacao anotacoes id texto) id = none) ∧
    ((∀ k v, mget anotacoes k = some v → v ≠ "") →
      ∀ k v, mget (salvarAnotacao anotacoes id texto) k = some v → v ≠ "") := by
  refine ⟨?_, ?_, ?_⟩
  · intro h
    simp [salvarAnotacao, h, mget_mset_self]
  · intro h
    simp [salvarAnotacao, h, mget_mdel_self]
  · intro hinv k v hk
    unfold salvarAnotacao at hk
    by_cases h : jsTrim texto = ""
    · rw [if_neg (by simp [h])] at hk
      simp only [mget, mdel] at hk
      by_cases hki : k = id
      · simp [hki] at hk
      · rw [if_neg hki] at hk
        exact hinv k v hk
    · rw [if_pos h] at hk
      simp only [mget, mset] at hk
      by_cases hki : k = id
      · rw [if_pos hki] at hk
        injection hk with hv
        subst hv
        intro he
        exact h (by rw [he]; rfl)
      · rw [if_neg hki] at hk
        exact hinv k v hk

theorem salvarAnotacao_spec_witness :
    mget (salvarAnotacao memp "i" "nota util") "i" = some "nota util" ∧
    mget (salvarAnotacao memp "i" "   ") "i" = none ∧
    ("nota util" : String) ≠ "" :=
  ⟨(salvarAnotacao_spec memp "i" "nota util").1 (by decide),
   (salvarAnotacao_spec memp "i" "   ").2.1 (by decide),
   (salvarAnotacao_spec memp "i" "nota util").2.2
     (fun k v hkv => absurd hkv (by simp [mget, memp])) "i" "nota util"
     ((salvarAnotacao_spec memp "i" "nota util").1 (by decide))⟩

/-- Claim C5: a payload that is not a well-formed object makes
`processarDadosCarregados` signal the malformed-dataset error (the `throw` at
the top of the `try` block), and the prior state — in particular the flat item
collection `todosItens` — is left completely unchanged. -/
theorem processarDadosCarregados_malformado (st : Estado) :
    processarCore Payload.invalido st = Except.error "JSON invalido: nao e um objeto" ∧
    processarDadosCarregados Payload.invalido st = st ∧
    (processarDadosCarregados Payload.invalido st).todosItens = st.todosItens :=
  ⟨rfl, rfl, rfl⟩

/-- Claim C3: correlation symmetry. After `adicionarCorrelacao a b`, the list
stored for `b` includes `a` and the list stored for `a` includes `b`; after
`removerCorrelacao a b`, neither side's list references the other, and neither
side is left with an empty-list entry (an entry that becomes empty is deleted,
so an item with no correlations has no entry and lookups default to `[]`). -/
theorem correlacoes_simetricas (c : StrMap (List String)) (a b : String) :
    arrIncludes ((mget (adicionarCorrelacao c a b) b).getD []) a = true ∧
    arrIncludes ((mget (adicionarCorrelacao c a b) a).getD []) b = true ∧
    arrIncludes ((mget (removerCorrelacao c a b) a).getD []) b = false ∧
    arrIncludes ((mget (removerCorrelacao c a b) b).getD []) a = false ∧
    (mget (removerCorrelacao c a b) a == some ([] : List String)) = false ∧
    (mget (removerCorrelacao c a b) b == some ([] : List String)) = false := by
  refine ⟨?_, ?_, ?_, ?_, ?_, ?_⟩
  · exact pushIfMissing_includes_self _ b a
  · by_cases hab : a = b
    · subst hab
      exact pushIfMissing_includes_self _ a a
    · unfold adicionarCorrelacao
      rw [pushIfMissing_other _ b a a hab]
      exact pushIfMissing_includes_self _ a b
  · by_cases hab : a = b
    · subst hab
      exact removeEdge_excludes_self _ a a
    · unfold removerCorrelacao
      rw [removeEdge_other _ b a a hab]
      exact removeEdge_excludes_self _ a b
  · exact removeEdge_excludes_self _ b a
  · by_cases hab : a = b
    · subst hab
      exact removeEdge_no_empty_self _ a a
    · unfold removerCorrelacao
      rw [removeEdge_other _ b a a hab]
      exact removeEdge_no_empty_self _ a b
  · exact removeEdge_no_empty_self _ b a

/-- Claim C4: `gerarIdConsistente` strips every non-alphanumeric character
from the identifier (the leading trim removes nothing more, as the first
conjunct shows) and yields the fixed per-kind prefix joined with `_` —
`sumula`, `oj`, `precedente` (also for the `precedente_normativo` spelling),
`informativo` — except thesis kinds (`tese`, `irr`, `irdr`, `iac`), which
yield `tese-` with a hyphen; an unknown kind falls back to the raw kind token
joined with `_`; and the function is deterministic. -/
theorem gerarIdConsistente_spec (tipo identificador : String) :
    limparId identificador = String.mk (identificador.toList.filter isAlnumAscii) ∧
    (jsToLower tipo = "sumula" →
      gerarIdConsistente tipo identificador = "sumula_" ++ limparId identificador) ∧
    (jsToLower tipo = "oj" →
      gerarIdConsistente tipo identificador = "oj_" ++ limparId identificador) ∧
    (jsToLower tipo = "precedente" ∨ jsToLower tipo = "precedente_normativo" →
      gerarIdConsistente tipo identificador = "precedente_" ++ limparId identificador) ∧
    (jsToLower tipo = "informativo" →
      gerarIdConsistente tipo identificador = "informativo_" ++ limparId identificador) ∧
    (jsToLower tipo = "tese" ∨ jsToLower tipo = "irr" ∨ jsToLower tipo = "irdr" ∨
        jsToLower tipo = "iac" →
      gerarIdConsistente tipo identificador = "tese-" ++ limparId identificador) ∧
    (jsToLower tipo ≠ "sumula" → jsToLower tipo ≠ "oj" → jsToLower tipo ≠ "precedente" →
     jsToLower tipo ≠ "precedente_normativo" → jsToLower tipo ≠ "informativo" →
     jsToLower tipo ≠ "tese" → jsToLower tipo ≠ "irr" → jsToLower tipo ≠ "irdr" →
     jsToLower tipo ≠ "iac" →
      gerarIdConsistente tipo identificador = tipo ++ "_" ++ limparId identificador) ∧
    gerarIdConsistente tipo identificador = gerarIdConsistente tipo identificador := by
  refine ⟨?_, ?_, ?_, ?_, ?_, ?_, ?_, rfl⟩
  · unfold limparId
    rw [filter_alnum_trimChars]
  · intro h
    simp [gerarIdConsistente, h]
  · intro h
    simp [gerarIdConsistente, h]
  · rintro (h | h) <;> simp [gerarIdConsistente, h]
  · intro h
    simp [gerarIdConsistente, h]
  · rintro (h | h | h | h) <;> simp [gerarIdConsistente, h]
  · intro h1 h2 h3 h4 h5 h6 h7 h8 h9
    simp [gerarIdConsistente, h1, h2, h3, h4, h5, h6, h7, h8, h9]

theorem gerarIdConsistente_spec_witness :
    gerarIdConsistente "Sumula" " 33-A " = "sumula_" ++ limparId " 33-A " ∧
    gerarIdConsistente "IRR" "1-B" = "tese-" ++ limparId "1-B" ∧
    gerarIdConsistente "custom" "7" = "custom" ++ "_" ++ limparId "7" :=
  ⟨(gerarIdConsistente_spec "Sumula" " 33-A ").2.1 (by decide),
   (gerarIdConsistente_spec "IRR" "1-B").2.2.2.2.2.1 (Or.inr (Or.inl (by decide))),
   (gerarIdConsistente_spec "custom" "7").2.2.2.2.2.2.1 (by decide) (by decide) (by decide)
     (by decide) (by decide) (by decide) (by decide) (by decide) (by decide)⟩

/-- Claim C7: query scope. On the primary case-law tab the candidate set is
the case-law subset regardless of the search text (so every result is
case-law); on any other tab the whole merged collection is filtered exactly
when the normalized search term is non-empty, and otherwise the candidate set
is again the case-law subset. -/
theorem escopoBusca (currentTab searchInput tipoFiltro orgaoFiltro numeroInput tagsInput
    statusFiltro : String) (todosItens : List Item) (tagsMap : StrMap (List String))
    (anotacoes : StrMap String) :
    (currentTab = "jurisprudencia" →
      realizarBusca currentTab searchInput tipoFiltro orgaoFiltro numeroInput tagsInput
          statusFiltro todosItens tagsMap anotacoes =
        (todosItens.filter ehJurisprudencia).filter
          (itemPassaFiltro statusFiltro tipoFiltro orgaoFiltro (jsTrim numeroInput)
            (jsTrim tagsInput) (jsTrim searchInput) tagsMap anotacoes) ∧
      ∀ item ∈ realizarBusca currentTab searchInput tipoFiltro orgaoFiltro numeroInput
          tagsInput statusFiltro todosItens tagsMap anotacoes,
        ehJurisprudencia item = true) ∧
    (currentTab ≠ "jurisprudencia" → normalizarTexto (jsTrim searchInput) ≠ "" →
      realizarBusca currentTab searchInput tipoFiltro orgaoFiltro numeroInput tagsInput
          statusFiltro todosItens tagsMap anotacoes =
        todosItens.filter
          (itemPassaFiltro statusFiltro tipoFiltro orgaoFiltro (jsTrim numeroInput)
            (jsTrim tagsInput) (jsTrim searchInput) tagsMap anotacoes)) ∧
    (currentTab ≠ "jurisprudencia" → normalizarTexto (jsTrim searchInput) = "" →
      realizarBusca currentTab searchInput tipoFiltro orgaoFiltro numeroInput tagsInput
          statusFiltro todosItens tagsMap anotacoes =
        (todosItens.filter ehJurisprudencia).filter
          (itemPassaFiltro statusFiltro tipoFiltro orgaoFiltro (jsTrim numeroInput)
            (jsTrim tagsInput) (jsTrim searchInput) tagsMap anotacoes) ∧
      ∀ item ∈ realizarBusca currentTab searchInput tipoFiltro orgaoFiltro numeroInput
          tagsInput statusFiltro todosItens tagsMap anotacoes,
        ehJurisprudencia item = true) := by
  refine ⟨?_, ?_, ?_⟩
  · intro h
    have he : realizarBusca currentTab searchInput tipoFiltro orgaoFiltro numeroInput
        tagsInput statusFiltro todosItens tagsMap anotacoes =
        (todosItens.filter ehJurisprudencia).filter
          (itemPassaFiltro statusFiltro tipoFiltro orgaoFiltro (jsTrim numeroInput)
            (jsTrim tagsInput) (jsTrim searchInput) tagsMap anotacoes) := by
      unfold realizarBusca itensParaFiltrar
      rw [if_pos h]
    refine ⟨he, ?_⟩
    intro item hmem
    rw [he] at hmem
    exact (List.mem_filter.mp (List.mem_filter.mp hmem).1).2
  · intro h hn
    unfold realizarBusca itensParaFiltrar
    rw [if_neg h, if_pos hn]
  · intro h hn
    have he : realizarBusca currentTab searchInput tipoFiltro orgaoFiltro numeroInput
        tagsInput statusFiltro todosItens tagsMap anotacoes =
        (todosItens.filter ehJurisprudencia).filter
          (itemPassaFiltro statusFiltro tipoFiltro orgaoFiltro (jsTrim numeroInput)
            (jsTrim tagsInput) (jsTrim searchInput) tagsMap anotacoes) := by
      unfold realizarBusca itensParaFiltrar
      rw [if_neg h, if_neg (by simp [hn])]
    refine ⟨he, ?_⟩
    intro item hmem
    rw [he] at hmem
    exact (List.mem_filter.mp (List.mem_filter.mp hmem).1).2

/-- A user-uploaded thesis document, as stored after `processarArquivo`. -/
def itemTeseExemplo : Item :=
  { id := some "tese-upload17", tipo := some "irr", source := some "tese",
    numero := none, titulo := none, texto := some "dano moral coletivo",
    textoExtraido := some "dano moral coletivo", orgao := none,
    tema := some "17", nome := some "tese.pdf", cancelada := false }

theorem escopoBusca_witness :
    realizarBusca "teses" "dano moral" "todos" "todos" "" "" "todos"
        [itemTeseExemplo] memp memp =
      List.filter (itemPassaFiltro "todos" "todos" "todos" (jsTrim "") (jsTrim "")
        (jsTrim "dano moral") memp memp) [itemTeseExemplo] :=
  (escopoBusca "teses" "dano moral" "todos" "todos" "" "" "todos"
    [itemTeseExemplo] memp memp).2.1 (by decide) (by decide)

/-- Claim C6 (amended): with the other filters at their neutral values and a
search term whose normalization is non-empty, an item passes the filter
predicate of `realizarBusca` iff every token of the search term — split on the
SPACE character (JS `split(' ')`), keeping only tokens of length > 2 —
normalized-matches somewhere in the concatenation of number, title, full
text, extracted text and the item's stored annotation (AND across tokens). -/
theorem buscaTextual_emendada (searchInput : String) (tagsMap : StrMap (List String))
    (anotacoes : StrMap String) (item : Item)
    (h : normalizarTexto (jsTrim searchInput) ≠ "") :
    itemPassaFiltro "todos" "todos" "todos" "" "" (jsTrim searchInput) tagsMap anotacoes
        item =
      ((jsSplitChar (jsTrim searchInput) ' ').filter (fun t => 2 < t.length)).all
        (fun termo => contemTermoNormalizado (textoComAnotacao anotacoes item) termo) := by
  have h1 : ¬(("todos" : String) = "vigentes" ∧ item.cancelada = true) :=
    fun hc => (by decide : ("todos" : String) ≠ "vigentes") hc.1
  have h2 : ¬(("todos" : String) = "canceladas" ∧ item.cancelada = false) :=
    fun hc => (by decide : ("todos" : String) ≠ "canceladas") hc.1
  have h3 : ¬(("todos" : String) ≠ "todos" ∧ tipoDisplay item ≠ some "todos") :=
    fun hc => hc.1 rfl
  have h4 : ¬(("todos" : String) ≠ "todos" ∧ item.tipo = some "oj" ∧
      jsIncludes (jsToUpper (jsOr item.orgao "")) (jsToUpper "todos") = false) :=
    fun hc => hc.1 rfl
  have h5 : ¬(("" : String) ≠ "" ∧ item.numero ≠ some "") :=
    fun hc => hc.1 rfl
  have h6 : ¬(("" : String) ≠ "" ∧ hasAllTags tagsMap "" item = false) :=
    fun hc => hc.1 rfl
  unfold itemPassaFiltro
  rw [if_neg h1, if_neg h2, if_neg h3, if_neg h4, if_neg h5, if_neg h6, if_pos h]
  rfl

/-- A case-law item whose full text is "dano moral trabalhista". -/
def itemDanoMoral : Item :=
  { id := some "sumula_1", tipo := some "sumula", source := some "jurisprudencia",
    numero := some "1", titulo := some "", texto := some "dano moral trabalhista",
    textoExtraido := none, orgao := none, tema := none, nome := none,
    cancelada := false }

/-- Claim C6 is false as stated for the query `"dano\tmoral"` (a tab between
the words): splitting on WHITESPACE yields the tokens `dano` and `moral`,
which both normalized-match the item's text, so the claim predicts the item
is kept; but the code splits on the space character only, keeps the single
token `"dano\tmoral"`, which does not match, and drops the item. -/
theorem buscaTextual_contraexemplo :
    (((splitEmBrancos "dano\tmoral").filter (fun t => 2 < t.length)).all
      (fun termo => contemTermoNormalizado (textoComAnotacao memp itemDanoMoral) termo))
        = true ∧
    itemPassaFiltro "todos" "todos" "todos" "" "" (jsTrim "dano\tmoral") memp memp
        itemDanoMoral = false ∧
    realizarBusca "jurisprudencia" "dano\tmoral" "todos" "todos" "" "" "todos"
        [itemDanoMoral] memp memp = [] := by
  refine ⟨by decide, by decide, by decide⟩

theorem buscaTextual_emendada_witness :
    itemPassaFiltro "todos" "todos" "todos" "" "" (jsTrim "dano trabalhista") memp memp
        itemDanoMoral =
      ((jsSplitChar (jsTrim "dano trabalhista") ' ').filter (fun t => 2 < t.length)).all
        (fun termo => contemTermoNormalizado (textoComAnotacao memp itemDanoMoral) termo) :=
  buscaTextual_emendada "dano trabalhista" memp memp itemDanoMoral (by decide)

/-- An uploaded bulletin with id `x`, correlated with item `a`. -/
def itemUploadX : Item :=
  { id := some "x", tipo := some "informativo", source := some "informativo",
    numero := none, titulo := none, texto := some "conteudo",
    textoExtraido := some "conteudo", orgao := none, tema := none,
    nome := some "doc.pdf", cancelada := false }

/-- A state in which document `x` is stored, favorited, annotated, tagged and
correlated (symmetrically) with item `a`. -/
def estadoComX : Estado :=
  { todosItens := [itemUploadX], itensFiltrados := [], informativos := [itemUploadX],
    tesesVinculantes := [], favoritos := ["x"],
    anotacoes := mset memp "x" "nota",
    tags := mset memp "x" ["trabalhista"],
    correlacoes := mset (mset memp "a" ["x"]) "x" ["a"],
    stats := ⟨0, 0, 0⟩ }

/-- Claim C1 fails on the code: `removerDocumento` deletes the removed
document's OWN correlation entry, its favorite, annotation and tag entries and
its element of the flat collection, but it does NOT visit the other items'
correlation lists, so after removing `x` the correlation list of `a` still
contains `x` — a dangling reverse edge. -/
theorem removerDocumento_aresta_pendente :
    mget (removerDocumento estadoComX "x" "informativo").correlacoes "a" = some ["x"] ∧
    (removerDocumento estadoComX "x" "informativo").todosItens = [] ∧
    (removerDocumento estadoComX "x" "informativo").informativos = [] ∧
    (removerDocumento estadoComX "x" "informativo").favoritos = [] ∧
    mget (removerDocumento estadoComX "x" "informativo").anotacoes "x" = none ∧
    mget (removerDocumento estadoComX "x" "informativo").tags "x" = none ∧
    mget (removerDocumento estadoComX "x" "informativo").correlacoes "x" = none := by
  refine ⟨by decide, by decide, by decide, by decide, by decide, by decide, by decide⟩

/-- Claim C2 fails on the code: `adicionarTag` tests membership of the RAW
tag but pushes the TRIMMED tag, so adding `" x"` to an item already tagged
`"x"` stores a duplicate; and a whitespace-only tag on an item without tags
creates an empty entry instead of leaving the store unchanged. -/
theorem adicionarTag_duplicada :
    mget (adicionarTag (mset memp "i" ["x"]) "i" " x") "i" = some ["x", "x"] ∧
    mget (adicionarTag memp "i" " ") "i" = some [] := by
  refine ⟨by decide, by decide⟩
